import Mathlib

/-!
Verification of the clirunner repository's sentinel-filter / process-runner
core against its natural-language specification.

The Go source is shallowly embedded:
* byte strings (Go `[]byte` / `string`) become `List Nat` (byte values;
  command texts in this repository are ASCII, so `String.data.map Char.toNat`
  is a faithful byte rendering for concrete inputs);
* the `Commander` interface (ifc/commander.go) becomes a record of pure
  functions over an explicit state type;
* Go panics (index out of range, nil-interface method calls, the
  `panicIfNotActuallyALine` framing check) become `Option`, with `none`
  marking the panic;
* a channel of lines, closed after the producer finishes, becomes the
  finite list of lines delivered before the close;
* the subprocess's stdin sink becomes a function from the written bytes to
  the pair (bytes-written, optional I/O error text), mirroring the
  `io.WriteString` result that the code inspects;
* the concurrent pair of per-stream watcher goroutines is modelled as the
  linearization in which the stdout watcher's consumer writes happen before
  the stderr watcher's; the spec leaves cross-stream order unconstrained,
  and no claim below depends on a finer interleaving.
-/

namespace Clirunner

/-- Errors produced by the embedded code.  Infrastructure (OS-level) error
texts carried inside them are plain byte strings. -/
inductive GoErr where
  /-- Message "wrote %d of %d bytes of command %q - %w" from `issueCommand`. -/
  | writeFailed (n fullLen : Nat) (fullCmd : List Nat) (inner : Option (List Nat))
  /-- Message "std%s closed while or before running %q, no sentinel detected". -/
  | streamClosed (title : String) (cmdTxt : List Nat)
  /-- Message "nothing is running" from `IssueSentinelsAndFilter`. -/
  | nothingRunning
  /-- the timeout error built by `expirationError`; carries the message. -/
  | expired (msg : List Nat)
  /-- an error returned by a Commander's `Write` (a "catastrophe"). -/
  | catastrophe (msg : List Nat)
  /-- Message "subprocess in error state, cannot recover" from `RunIt`. -/
  | errState
  /-- Message "already running something" from `RunIt`. -/
  | alreadyRunning
  /-- Message "provide a Commander" from `RunIt`. -/
  | provideCommander
  /-- Message "cannot interrupt run" from `Close`. -/
  | cannotInterrupt
  /-- Message "cannot close error state" from `Close`. -/
  | cannotCloseError
  /-- Message "must specify a Path" from `Parameters.Validate`. -/
  | mustSpecifyPath
  /-- Message "must specify OutSentinel" from `Parameters.Validate`. -/
  | mustSpecifyOutSentinel
  /-- an error from starting the subprocess (`startSubprocess`). -/
  | startFailed (msg : List Nat)
  /-- an error from closing the subprocess's stdin (`attemptShutdown`). -/
  | closeFailed (msg : List Nat)
  deriving DecidableEq, Repr

/-- Bytes of an ASCII string, for concrete inputs. -/
def strBytes (s : String) : List Nat :=
  s.data.map Char.toNat

/-- Model of `leadsWith needle hay` is true when `hay` starts with `needle`. -/
def leadsWith : (needle hay : List Nat) → Bool
  | [], _ => true
  | _ :: _, [] => false
  | a :: as, b :: bs => a == b && leadsWith as bs

/-- Go's `bytes.Contains(hay, needle)`. -/
def bytesContains : (hay needle : List Nat) → Bool
  | [], needle => needle.isEmpty
  | h :: t, needle => leadsWith needle (h :: t) || bytesContains t needle

/-- The `Commander` interface (ifc/commander.go) as a record of pure
operations over an explicit state type `σ`: `String()`, `Write` (the
returned byte count is ignored by every caller in the filter, so only the
error is kept), `Success()` and `Reset()`. -/
structure CommanderImpl (σ : Type) where
  str : σ → List Nat
  write : σ → List Nat → σ × Option GoErr
  success : σ → Bool
  reset : σ → σ

/-- Model of `assureCmdLineTermination` (sentinelfilter.go): strip one trailing
line-feed if present, append the terminator when configured and not already
last, then append one line-feed.  Go indexes `c[len(c)-1]` twice; an index
on an empty slice panics, modelled by `none`. -/
def assureCmdLineTermination (c : List Nat) (terminator : Nat) : Option (List Nat) :=
  match c.getLast? with
  | none => none
  | some last1 =>
    let c1 := if last1 = 10 then c.dropLast else c
    if terminator > 0 then
      match c1.getLast? with
      | none => none
      | some last2 =>
        some ((if last2 ≠ terminator then c1 ++ [terminator] else c1) ++ [10])
    else
      some (c1 ++ [10])

/-- Specification-side predicate: `out` ends in exactly one terminator
(when `t ≠ 0`) followed by exactly one line-feed, neither doubled. -/
def endsSingly (out : List Nat) (t : Nat) : Bool :=
  if t = 0 then
    match out.reverse with
    | 10 :: rest => rest.head? != some 10
    | _ => false
  else
    match out.reverse with
    | 10 :: t2 :: rest => t2 == t && rest.head? != some t
    | _ => false

/-- Specification-side predicate: `s` ends in two copies of `t`. -/
def endsInDoubled (s : List Nat) (t : Nat) : Bool :=
  match s.reverse with
  | a :: b :: _ => a == t && b == t
  | _ => false

lemma exists_concat_of_ne_nil {s : List Nat} (h : s ≠ []) :
    ∃ l a, s = l ++ [a] := by
  rcases List.eq_nil_or_concat s with h1 | ⟨l, a, h2⟩
  · exact absurd h1 h
  · exact ⟨l, a, by simpa [List.concat_eq_append] using h2⟩

/-- Model of `SimpleSentinelCommander` (cmdrs): asserts Success when `value`
appears anywhere in a written line, recording the whole matching line;
`Write` always returns `(0, nil)`. -/
structure SimpleSentinelCommander where
  command : List Nat
  value : List Nat
  success : Bool
  matchLine : List Nat
  deriving DecidableEq, Repr

/-- The `Commander` operations of `SimpleSentinelCommander`. -/
def simpleSentinelImpl : CommanderImpl SimpleSentinelCommander where
  str s := s.command
  write s b :=
    (if bytesContains b s.value then { s with matchLine := b, success := true }
     else s, none)
  success s := s.success
  reset s := { s with matchLine := [], success := false }

/-- Model of `KondoCommander` (cmdrs/kondocommander.go): discards every line,
always reports Success, `Reset` does nothing. -/
structure KondoCommander where
  command : List Nat
  deriving DecidableEq, Repr

/-- The `Commander` operations of `KondoCommander`. -/
def kondoImpl : CommanderImpl KondoCommander where
  str s := s.command
  write s _ := (s, none)
  success _ := true
  reset s := s

/-- Model of `HoardingCommander` (cmdrs): keeps everything written, restoring the
line-feed the scanner stripped; always succeeds. -/
structure HoardingCommander where
  command : List Nat
  data : List Nat
  deriving DecidableEq, Repr

/-- The `Commander` operations of `HoardingCommander`. -/
def hoardingImpl : CommanderImpl HoardingCommander where
  str s := s.command
  write s b := ({ s with data := s.data ++ b ++ [10] }, none)
  success _ := true
  reset s := { s with data := [] }

/-- The stdin sink: the observable result of `io.WriteString` of given
bytes — the count of bytes written and an optional I/O error text. -/
def Sink : Type := List Nat → Nat × Option (List Nat)

/-- A sink whose writes always fully succeed. -/
def goodSink : Sink := fun s => (s.length, none)

/-- Model of `issueCommand` (sentinelfilter.go): an empty command returns
immediately (no write, `running` unchanged); otherwise the command is
normalized (`none` models the normalization panic), written to the sink, a
write error is built when the write erred or was short, and `running` is
set.  The result carries (fullCmd, error, running-after, performed
writes). -/
def issueCommand (sink : Sink) (terminator : Nat) (running : Bool)
    (c : List Nat) :
    Option (List Nat × Option GoErr × Bool × List (List Nat)) :=
  if c = [] then some ([], none, running, [])
  else
    match assureCmdLineTermination c terminator with
    | none => none
    | some fullCmd =>
      let wr := sink fullCmd
      let err :=
        if wr.2.isSome ∨ wr.1 ≠ fullCmd.length then
          some (GoErr.writeFailed wr.1 fullCmd.length fullCmd wr.2)
        else none
      some (fullCmd, err, true, [fullCmd])

/-- Model of `BeginRun` (sentinelfilter.go): binds the writer and the commander,
then issues the commander's command text through `issueCommand`. -/
def beginRun {σc : Type} (cmdr : CommanderImpl σc) (x : σc) (sink : Sink)
    (terminator : Nat) (running : Bool) :
    Option (List Nat × Option GoErr × Bool × List (List Nat)) :=
  issueCommand sink terminator running (cmdr.str x)

/-- Model of `filterForSentinel` (sentinelfilter.go): one stream's watcher loop.
Lines are read until the channel closes (end of list, a
"stream closed before sentinel" error); each line is checked for an
embedded line-feed (`panicIfNotActuallyALine`, modelled by `none`), then
offered to the sentinel when it has not yet succeeded (a write error is a
catastrophe that ends the round); once the sentinel succeeds the watcher
stops without forwarding the matching line; otherwise the line goes to the
regular commander. -/
def filterForSentinel {σs σc : Type} (sen : CommanderImpl σs)
    (cmdr : CommanderImpl σc) (title : String) (s : σs) (c : σc) :
    List (List Nat) → Option (σs × σc × Option GoErr)
  | [] => some (s, c, some (GoErr.streamClosed title (cmdr.str c)))
  | line :: rest =>
    if bytesContains line [10] then none
    else
      match (if sen.success s then (s, none) else sen.write s line) with
      | (s1, some e) => some (s1, c, some e)
      | (s1, none) =>
        if sen.success s1 then some (s1, c, none)
        else
          match cmdr.write c line with
          | (c1, some e) => some (s1, c1, some e)
          | (c1, none) => filterForSentinel sen cmdr title s1 c1 rest

/-- Model of `passThru` (sentinelfilter.go): used for stderr when no error sentinel
is configured; forwards every line until the channel closes. -/
def passThru {σc : Type} (cmdr : CommanderImpl σc) (c : σc) :
    List (List Nat) → Option (σc × Option GoErr)
  | [] => some (c, none)
  | line :: rest =>
    if bytesContains line [10] then none
    else
      match cmdr.write c line with
      | (c1, some e) => some (c1, some e)
      | (c1, none) => passThru cmdr c1 rest

/-- Specification-side measure: how many lines the watcher forwards to the
regular consumer before the sentinel first reports success (all of them
when it never succeeds). -/
def sentinelCut {σs : Type} (sen : CommanderImpl σs) (s : σs) :
    List (List Nat) → Nat
  | [] => 0
  | line :: rest =>
    if sen.success s then 0
    else
      let s1 := (sen.write s line).1
      if sen.success s1 then 0 else sentinelCut sen s1 rest + 1

/-- Specification-side predicate: the sentinel reports success somewhere
along the lines. -/
def sentinelFound {σs : Type} (sen : CommanderImpl σs) (s : σs) :
    List (List Nat) → Bool
  | [] => false
  | line :: rest =>
    if sen.success s then true
    else
      let s1 := (sen.write s line).1
      sen.success s1 || sentinelFound sen s1 rest

/-- The consumer state after receiving the given lines in order. -/
def consumeAll {σc : Type} (cmdr : CommanderImpl σc) (c : σc)
    (lines : List (List Nat)) : σc :=
  List.foldl (fun a l => (cmdr.write a l).1) c lines

/-- The error combination at the end of `filterForSentinels` as written in
internal/fltr/sentinelfilter.go: the output watcher's error takes
priority; otherwise the error watcher's error (if any) is sent. -/
def combineWatcherErrs (errOut errErr : Option GoErr) : Option GoErr :=
  if errOut.isSome then errOut else errErr

/-- Calling `Error()` on a Go `error` interface value: a nil-interface
method call panics (`none`). -/
def errInterfaceCall : Option GoErr → Option Unit
  | none => none
  | some _ => some ()

/-- The same combination as written in src/sentinelfilter.go, where the
debug logging participates: on the branch where only the error watcher
erred, the log message is built as
`"filterForSentinels found errErr = " + errOut.Error()`; `errOut` is the
nil error interface there, so building the message panics (`none`) before
`errErr` can be sent to the `done` channel. -/
def combineWatcherErrsLogged (errOut errErr : Option GoErr) :
    Option (Option GoErr) :=
  match errOut with
  | some e => some (some e)
  | none =>
    match errErr with
    | some e2 =>
      match errInterfaceCall errOut with
      | none => none
      | some _ => some (some e2)
    | none => some none

/-- Model of `SentinelFilter` state: the running flag, the terminator byte, the
output sentinel's state and the optional error sentinel's state. -/
structure SFState (σo σe : Type) where
  running : Bool
  term : Nat
  outS : σo
  errS : Option σe
  deriving DecidableEq, Repr

/-- Model of `resetFilter`: running becomes false; the output sentinel and, when
configured, the error sentinel are reset. -/
def resetFilter {σo σe : Type} (io : CommanderImpl σo)
    (ie : CommanderImpl σe) (st : SFState σo σe) : SFState σo σe :=
  { st with running := false, outS := io.reset st.outS,
            errS := st.errS.map ie.reset }

/-- Model of `filterForSentinels` (per internal/fltr): run the output-stream
watcher, run the error-stream watcher (or `passThru` when no error
sentinel is configured), then combine their errors with output priority.
The two watcher goroutines' interleaved writes into the shared consumer
are linearized output-stream first; in Go the `passThru` goroutine is not
awaited, modelled here as the schedule in which it finished first. -/
def filterForSentinels {σo σe σc : Type} (io : CommanderImpl σo)
    (ie : CommanderImpl σe) (ic : CommanderImpl σc)
    (st : SFState σo σe) (c : σc) (chOut chErr : List (List Nat)) :
    Option (σo × Option σe × σc × Option GoErr) :=
  match filterForSentinel io ic "Out" st.outS c chOut with
  | none => none
  | some (o1, c1, errOut) =>
    match st.errS with
    | some es =>
      match filterForSentinel ie ic "Err" es c1 chErr with
      | none => none
      | some (e1, c2, errErr) =>
        some (o1, some e1, c2, combineWatcherErrs errOut errErr)
    | none =>
      match passThru ic c1 chErr with
      | none => none
      | some (c2, errErr) =>
        some (o1, none, c2, combineWatcherErrs errOut errErr)

/-- Model of `defaultSentinelDuration`: 3 seconds, in nanoseconds. -/
def defaultSentinelDuration : Nat := 3000000000

/-- The timeout actually used by the wait: the default when zero. -/
def effectiveTimeout (timeOut : Nat) : Nat :=
  if timeOut = 0 then defaultSentinelDuration else timeOut

/-- Go's `%q` of an escape-free text: surrounding double quotes. -/
def goQuote (s : List Nat) : List Nat := [34] ++ s ++ [34]

/-- The rendering of the elapsed `time.Duration` in the timeout message
(here the nanosecond count in decimal; Go prints a human-readable form of
the same duration value). -/
def durationRender (d : Nat) : List Nat := strBytes (toString d)

/-- Model of `expirationError` (sentinelfilter.go): the timeout error message,
naming the running command, the elapsed duration, and the unmet sentinel:
the literal "prompt" when the output sentinel's command text is empty,
else the sentinel's command text. -/
def expirationError (cmdTxt outTxt : List Nat) (d : Nat) : List Nat :=
  let msg := strBytes "in command " ++ goQuote cmdTxt ++ strBytes ", time " ++
    durationRender d ++ strBytes " expired before detection of "
  if outTxt = [] then msg ++ strBytes "prompt"
  else msg ++ strBytes "output from sentinel command " ++ goQuote outTxt

/-- Model of `IssueSentinelsAndFilter` (sentinelfilter.go / internal/fltr):
requires running (else the "nothing is running" error, with nothing else
done); substitutes the default for a zero timeout; issues the output
sentinel's command (a no-op when its text is empty), then the error
sentinel's command when one is configured; then races the watcher pair
against the timer, with the race's outcome modelled by the `timerWins`
input (on expiry the abandoned watchers' racing mutations are modelled by
the schedule in which they had not yet run).  Every path after the
running check resets the filter (`defer cw.resetFilter()`).  The result
carries (filter state, consumer state, round error, performed writes). -/
def issueSentinelsAndFilter {σo σe σc : Type} (io : CommanderImpl σo)
    (ie : CommanderImpl σe) (ic : CommanderImpl σc) (sink : Sink)
    (st : SFState σo σe) (c : σc) (chOut chErr : List (List Nat))
    (timeOut : Nat) (timerWins : Bool) :
    Option (SFState σo σe × σc × Option GoErr × List (List Nat)) :=
  if !st.running then some (st, c, some GoErr.nothingRunning, [])
  else
    match issueCommand sink st.term st.running (io.str st.outS) with
    | none => none
    | some (_, some e, _, w1) => some (resetFilter io ie st, c, some e, w1)
    | some (_, none, _, w1) =>
      match (match st.errS with
             | none => some (none, ([] : List (List Nat)))
             | some es =>
               (issueCommand sink st.term true (ie.str es)).map
                 (fun r => (r.2.1, r.2.2.2))) with
      | none => none
      | some (some e, w2) => some (resetFilter io ie st, c, some e, w1 ++ w2)
      | some (none, w2) =>
        if timerWins then
          some (resetFilter io ie st, c,
            some (GoErr.expired (expirationError (ic.str c) (io.str st.outS)
              (effectiveTimeout timeOut))),
            w1 ++ w2)
        else
          match filterForSentinels io ie ic st c chOut chErr with
          | none => none
          | some (o1, e1, c1, errF) =>
            some (resetFilter io ie { st with outS := o1, errS := e1 }, c1,
              errF, w1 ++ w2)

/-- C4 counterexample: with terminator `;` (byte 59) and input `"a;;\n"`,
the normalized output is `"a;;\n"`, which ends in a doubled terminator,
contradicting "with neither the terminator nor the line-feed ever doubled"
for an input that ends in a line-feed with a pre-existing terminator
immediately before it. -/
theorem c4_counterexample :
    assureCmdLineTermination [97, 59, 59, 10] 59 = some [97, 59, 59, 10] ∧
      endsSingly [97, 59, 59, 10] 59 = false := by
  decide

/-- C4 (amended): for every command text of the form `s ++ "\n"` where the
body `s` is non-empty, does not end in a doubled terminator (when `T ≠ 0`),
and does not end in a line-feed (when `T = 0`), the normalization produces
an output ending in exactly one `T` (when `T ≠ 0`) followed by exactly one
line-feed, with neither doubled. -/
theorem c4_normalization_ends_singly (s : List Nat) (t : Nat)
    (hne : s ≠ [])
    (hdt : t ≠ 0 → endsInDoubled s t = false)
    (hlf : t = 0 → s.getLast? ≠ some 10) :
    ∃ out, assureCmdLineTermination (s ++ [10]) t = some out ∧
      endsSingly out t = true := by
  obtain ⟨l, a, rfl⟩ := exists_concat_of_ne_nil hne
  rcases Nat.eq_zero_or_pos t with ht0 | htpos
  · subst ht0
    refine ⟨(l ++ [a]) ++ [10], ?_, ?_⟩
    · simp [assureCmdLineTermination, List.getLast?_concat, List.dropLast_concat]
    · have ha : a ≠ 10 := by
        intro hEq
        exact (hlf rfl) (by simp [List.getLast?_concat, hEq])
      simp [endsSingly, List.reverse_append, ha]
  · have htne : t ≠ 0 := Nat.pos_iff_ne_zero.mp htpos
    have hdb := hdt htne
    by_cases hat : a = t
    · subst hat
      refine ⟨(l ++ [a]) ++ [10], ?_, ?_⟩
      · simp [assureCmdLineTermination, List.getLast?_concat, List.dropLast_concat,
          htpos]
      · cases hlr : l.reverse with
        | nil => simp [endsSingly, htne, List.reverse_append, hlr]
        | cons b r =>
          have hbne : b ≠ a := by
            intro hEq
            rw [endsInDoubled, List.reverse_append] at hdb
            simp [hlr, hEq] at hdb
          simp [endsSingly, htne, List.reverse_append, hlr, hbne]
    · refine ⟨((l ++ [a]) ++ [t]) ++ [10], ?_, ?_⟩
      · simp [assureCmdLineTermination, List.getLast?_concat, List.dropLast_concat,
          htpos, hat]
      · simp [endsSingly, htne, List.reverse_append, hat]

/-- C4 witness: the amended theorem applied at `s = "list limit 2"`,
`T = ';'`. -/
theorem c4_witness :
    ∃ out,
      assureCmdLineTermination (strBytes "list limit 2" ++ [10]) 59 = some out ∧
        endsSingly out 59 = true :=
  c4_normalization_ends_singly (strBytes "list limit 2") 59
    (by decide) (fun _ => by decide) (fun h => by simp at h)

/-- C1: the output watcher forwards to the bound regular consumer exactly
the lines read before the output sentinel reports success, in order
(`lines.take (sentinelCut ...)`); every line is first offered to the
sentinel, and the matching line and all later lines of the round are not
forwarded; when the channel closes before a match the watcher reports the
stream-closed error.  Hypotheses: the delivered lines are line-feed-free
(otherwise the code aborts on its framing check) and neither the sentinel
nor the regular consumer raises a catastrophic write error. -/
theorem c1_output_watcher_forwards {σs σc : Type} (sen : CommanderImpl σs)
    (cmdr : CommanderImpl σc) (title : String) (s : σs) (c : σc)
    (lines : List (List Nat))
    (hlines : ∀ l ∈ lines, bytesContains l [10] = false)
    (hsen : ∀ x b, (sen.write x b).2 = none)
    (hcmdr : ∀ x b, (cmdr.write x b).2 = none) :
    ∃ s', filterForSentinel sen cmdr title s c lines =
      some (s',
        consumeAll cmdr c (lines.take (sentinelCut sen s lines)),
        if sentinelFound sen s lines then none
        else some (GoErr.streamClosed title
          (cmdr.str (consumeAll cmdr c
            (lines.take (sentinelCut sen s lines)))))) := by
  induction lines generalizing s c with
  | nil =>
    exact ⟨s, by simp [filterForSentinel, sentinelCut, sentinelFound, consumeAll]⟩
  | cons line rest ih =>
    have hl : bytesContains line [10] = false := hlines line (by simp)
    have hrest : ∀ l ∈ rest, bytesContains l [10] = false :=
      fun l hm => hlines l (by simp [hm])
    by_cases hss : sen.success s
    · refine ⟨s, ?_⟩
      simp [filterForSentinel, sentinelCut, sentinelFound, consumeAll, hl, hss]
    · rcases hw : sen.write s line with ⟨s1, e⟩
      have he : e = none := by
        have hx := hsen s line
        rw [hw] at hx
        exact hx
      subst he
      by_cases hs1 : sen.success s1
      · refine ⟨s1, ?_⟩
        simp [filterForSentinel, sentinelCut, sentinelFound, consumeAll, hl,
          hss, hw, hs1]
      · rcases hcw : cmdr.write c line with ⟨c1, ec⟩
        have hec : ec = none := by
          have hx := hcmdr c line
          rw [hcw] at hx
          exact hx
        subst hec
        obtain ⟨s', hrec⟩ := ih s1 c1 hrest
        refine ⟨s', ?_⟩
        simp [filterForSentinel, hl, hss, hw, hs1, hcw, hrec,
          sentinelCut, sentinelFound, consumeAll]

/-- The simulated output-stream lines of the spec's scenario. -/
def scenarioRows : List (List Nat) :=
  [strBytes "row1", strBytes "row2", strBytes "X_MARK", strBytes "row3"]

/-- C1 witness: the scenario.  Output sentinel `"echo X_MARK"` targeting
`"X_MARK"`, regular consumer `"list limit 2"`, rows
`"row1"`, `"row2"`, `"X_MARK"`, `"row3"`: the consumer collects exactly
`"row1\n" ++ "row2\n"` and the round succeeds. -/
theorem c1_witness : ∃ s',
    filterForSentinel simpleSentinelImpl hoardingImpl "Out"
      ⟨strBytes "echo X_MARK", strBytes "X_MARK", false, []⟩
      ⟨strBytes "list limit 2", []⟩ scenarioRows =
    some (s', ⟨strBytes "list limit 2",
      strBytes "row1" ++ [10] ++ (strBytes "row2" ++ [10])⟩, none) := by
  obtain ⟨s', h⟩ := c1_output_watcher_forwards simpleSentinelImpl hoardingImpl
    "Out" ⟨strBytes "echo X_MARK", strBytes "X_MARK", false, []⟩
    ⟨strBytes "list limit 2", []⟩ scenarioRows (by decide)
    (fun _ _ => rfl) (fun _ _ => rfl)
  refine ⟨s', ?_⟩
  rw [h]
  simp only [Option.some.injEq, Prod.mk.injEq]
  exact ⟨trivial, by decide, by decide⟩

/-- C5 (amended): for every consumer whose command text is non-empty (and
whose normalization does not abort), `BeginRun` normalizes the text,
writes it to the input sink, sets the running flag to true, and returns
the normalized text together with any write error, where a write of
fewer bytes than the normalized text's length counts as an error.  (A
consumer with empty command text instead returns immediately: no write,
no error, running unchanged — see the counterexample.) -/
theorem c5_beginRun_writes_and_runs {σc : Type} (cmdr : CommanderImpl σc)
    (x : σc) (sink : Sink) (terminator : Nat) (running : Bool)
    (full : List Nat)
    (hc : cmdr.str x ≠ [])
    (hnorm : assureCmdLineTermination (cmdr.str x) terminator = some full) :
    beginRun cmdr x sink terminator running =
      some (full,
        (if (sink full).2.isSome ∨ (sink full).1 ≠ full.length then
          some (GoErr.writeFailed (sink full).1 full.length full (sink full).2)
         else none),
        true, [full]) := by
  simp [beginRun, issueCommand, hc, hnorm]

/-- C5 witness: `"list limit 2"` with terminator `';'` over a sink that
reports a short write of 0 bytes: the normalized text `"list limit 2;\n"`
is returned together with a write error, and running becomes true. -/
theorem c5_witness :
    beginRun hoardingImpl ⟨strBytes "list limit 2", []⟩ (fun _ => (0, none))
        59 false =
      some (strBytes "list limit 2;" ++ [10],
        some (GoErr.writeFailed 0 14 (strBytes "list limit 2;" ++ [10]) none),
        true, [strBytes "list limit 2;" ++ [10]]) :=
  (c5_beginRun_writes_and_runs hoardingImpl ⟨strBytes "list limit 2", []⟩
      (fun _ => (0, none)) 59 false (strBytes "list limit 2;" ++ [10])
      (by decide) (by decide)).trans (by decide)

/-- C5 counterexample: a consumer with empty command text (e.g. a
`KondoCommander` whose Command is `""`, as `Close` builds for an empty
exit command): `BeginRun` returns immediately — no write is performed and,
contrary to the claim, the running flag is left false, not set to true. -/
theorem c5_counterexample :
    beginRun kondoImpl ⟨[]⟩ goodSink 59 false = some ([], none, false, []) ∧
      (beginRun kondoImpl ⟨[]⟩ goodSink 59 false).map (fun r => r.2.2.1) ≠
        some true := by
  decide

/-- C2: evaluated at the failing situation — the output watcher finished
without error (`errOut` nil) while the error watcher reports its stream
closed before its sentinel was detected.  The fltr combination returns the
error watcher's error (and gives the output watcher's error priority when
both err), but the src/sentinelfilter.go variant panics while building its
debug log message (`errOut.Error()` on the nil interface) instead of
returning the error from the round. -/
theorem c2_error_priority_divergence :
    filterForSentinels simpleSentinelImpl simpleSentinelImpl hoardingImpl
        ⟨true, 0, ⟨strBytes "echo X_MARK", strBytes "X_MARK", false, []⟩,
          some ⟨strBytes "bogusCmd", strBytes "unknown command", false, []⟩⟩
        ⟨strBytes "list limit 2", []⟩ [strBytes "X_MARK"] [] =
      some (⟨strBytes "echo X_MARK", strBytes "X_MARK", true, strBytes "X_MARK"⟩,
        some ⟨strBytes "bogusCmd", strBytes "unknown command", false, []⟩,
        ⟨strBytes "list limit 2", []⟩,
        some (GoErr.streamClosed "Err" (strBytes "list limit 2"))) ∧
    combineWatcherErrsLogged none
        (some (GoErr.streamClosed "Err" (strBytes "list limit 2"))) = none ∧
    combineWatcherErrs
        (some (GoErr.streamClosed "Out" (strBytes "list limit 2")))
        (some (GoErr.streamClosed "Err" (strBytes "list limit 2"))) =
      some (GoErr.streamClosed "Out" (strBytes "list limit 2")) := by
  decide

/-- After `resetFilter`, running is false and both sentinel consumers
report failure again, provided their `Reset` honours the Commander
contract ("sets Success to false"). -/
lemma resetFilter_clears {σo σe : Type} (io : CommanderImpl σo)
    (ie : CommanderImpl σe) (st : SFState σo σe)
    (hro : ∀ x, io.success (io.reset x) = false)
    (hre : ∀ x, ie.success (ie.reset x) = false) :
    (resetFilter io ie st).running = false ∧
      io.success (resetFilter io ie st).outS = false ∧
      ∀ es, (resetFilter io ie st).errS = some es → ie.success es = false := by
  refine ⟨rfl, hro st.outS, ?_⟩
  intro es hes
  cases hs : st.errS with
  | none => rw [resetFilter] at hes; simp [hs] at hes
  | some y =>
    rw [resetFilter] at hes
    simp only [hs, Option.map_some', Option.some.injEq] at hes
    rw [← hes]
    exact hre y

/-- Over a sink whose writes fully succeed, `issueCommand` never produces
a write error. -/
lemma issueCommand_goodSink_no_error (sink : Sink)
    (hsink : ∀ s, sink s = (s.length, none)) (terminator : Nat)
    (running : Bool) (c : List Nat) (r : List Nat × Option GoErr × Bool × List (List Nat))
    (h : issueCommand sink terminator running c = some r) : r.2.1 = none := by
  rw [issueCommand] at h
  split at h
  · cases h; rfl
  · split at h
    · exact absurd h (by simp)
    · rw [hsink] at h
      simp only [Option.isSome_none, Bool.false_eq_true, false_or,
        ne_eq, not_true_eq_false] at h
      rw [if_neg (by simp)] at h
      cases h
      rfl

/-- C6: when the filter is not running, the wait
(`IssueSentinelsAndFilter`) returns the "nothing is running" error having
done nothing (no write, no state change); when it is running, every
value-returning path leaves the filter reset: the running flag is false
and the sentinel consumers (the error sentinel only when configured)
report Success false, given that their `Reset` honours the Commander
contract. -/
theorem c6_wait_requires_running_and_resets {σo σe σc : Type}
    (io : CommanderImpl σo) (ie : CommanderImpl σe) (ic : CommanderImpl σc)
    (sink : Sink) (st : SFState σo σe) (c : σc)
    (chOut chErr : List (List Nat)) (timeOut : Nat) (timerWins : Bool)
    (hro : ∀ x, io.success (io.reset x) = false)
    (hre : ∀ x, ie.success (ie.reset x) = false) :
    (st.running = false →
      issueSentinelsAndFilter io ie ic sink st c chOut chErr timeOut timerWins =
        some (st, c, some GoErr.nothingRunning, [])) ∧
    (∀ r, issueSentinelsAndFilter io ie ic sink st c chOut chErr timeOut
        timerWins = some r → st.running = true →
      r.1.running = false ∧ io.success r.1.outS = false ∧
        ∀ es, r.1.errS = some es → ie.success es = false) := by
  constructor
  · intro hrun
    rw [issueSentinelsAndFilter, hrun]
    rfl
  · intro r h hrun
    rw [issueSentinelsAndFilter, hrun] at h
    simp only [Bool.not_true, Bool.false_eq_true, if_false] at h
    split at h
    · exact absurd h (by simp)
    · cases h
      exact resetFilter_clears io ie st hro hre
    · split at h
      · exact absurd h (by simp)
      · cases h
        exact resetFilter_clears io ie st hro hre
      · split at h
        · cases h
          exact resetFilter_clears io ie st hro hre
        · split at h
          · exact absurd h (by simp)
          · cases h
            exact resetFilter_clears io ie _ hro hre

/-- C6 witness: the reset theorem applied to a concrete running round:
output sentinel `"echo X_MARK"`/`"X_MARK"`, error sentinel
`"bogusCmd"`/`"unknown command"`, both matching; afterwards running is
false and both sentinel consumers report Success false. -/
theorem c6_witness :
    issueSentinelsAndFilter simpleSentinelImpl simpleSentinelImpl hoardingImpl
        goodSink
        ⟨true, 0, ⟨strBytes "echo X_MARK", strBytes "X_MARK", false, []⟩,
          some ⟨strBytes "bogusCmd", strBytes "unknown command", false, []⟩⟩
        ⟨strBytes "list limit 2", []⟩ [strBytes "X_MARK"]
        [strBytes "unknown command"] 0 false =
      some (⟨false, 0, ⟨strBytes "echo X_MARK", strBytes "X_MARK", false, []⟩,
          some ⟨strBytes "bogusCmd", strBytes "unknown command", false, []⟩⟩,
        ⟨strBytes "list limit 2", []⟩, none,
        [strBytes "echo X_MARK" ++ [10], strBytes "bogusCmd" ++ [10]]) ∧
    (⟨false, 0, ⟨strBytes "echo X_MARK", strBytes "X_MARK", false, []⟩,
        some ⟨strBytes "bogusCmd", strBytes "unknown command", false, []⟩⟩ :
      SFState SimpleSentinelCommander SimpleSentinelCommander).running = false ∧
    simpleSentinelImpl.success
      ⟨strBytes "echo X_MARK", strBytes "X_MARK", false, []⟩ = false ∧
    simpleSentinelImpl.success
      ⟨strBytes "bogusCmd", strBytes "unknown command", false, []⟩ = false := by
  have h : issueSentinelsAndFilter simpleSentinelImpl simpleSentinelImpl
      hoardingImpl goodSink
      ⟨true, 0, ⟨strBytes "echo X_MARK", strBytes "X_MARK", false, []⟩,
        some ⟨strBytes "bogusCmd", strBytes "unknown command", false, []⟩⟩
      ⟨strBytes "list limit 2", []⟩ [strBytes "X_MARK"]
      [strBytes "unknown command"] 0 false =
    some (⟨false, 0, ⟨strBytes "echo X_MARK", strBytes "X_MARK", false, []⟩,
        some ⟨strBytes "bogusCmd", strBytes "unknown command", false, []⟩⟩,
      ⟨strBytes "list limit 2", []⟩, none,
      [strBytes "echo X_MARK" ++ [10], strBytes "bogusCmd" ++ [10]]) := by
    decide
  have hc := (c6_wait_requires_running_and_resets simpleSentinelImpl
    simpleSentinelImpl hoardingImpl goodSink
    ⟨true, 0, ⟨strBytes "echo X_MARK", strBytes "X_MARK", false, []⟩,
      some ⟨strBytes "bogusCmd", strBytes "unknown command", false, []⟩⟩
    ⟨strBytes "list limit 2", []⟩ [strBytes "X_MARK"]
    [strBytes "unknown command"] 0 false
    (fun _ => rfl) (fun _ => rfl)).2 _ h rfl
  exact ⟨h, hc.1, hc.2.1, hc.2.2 _ rfl⟩

/-- C7: when the timer fires first (over a sink whose writes succeed, so
the round reached the race), the round returns the expiration error,
whose message names the effective elapsed duration and the unmet sentinel
identity: the literal "prompt" when the output sentinel's command text is
empty, else the sentinel's (quoted) command text. -/
theorem c7_timeout_names_duration_and_sentinel {σo σe σc : Type}
    (io : CommanderImpl σo) (ie : CommanderImpl σe) (ic : CommanderImpl σc)
    (sink : Sink) (st : SFState σo σe) (c : σc)
    (chOut chErr : List (List Nat)) (timeOut : Nat)
    (hsink : ∀ s, sink s = (s.length, none)) :
    ∀ r, issueSentinelsAndFilter io ie ic sink st c chOut chErr timeOut true =
        some r → st.running = true →
      r.2.2.1 = some (GoErr.expired (expirationError (ic.str c)
        (io.str st.outS) (effectiveTimeout timeOut))) ∧
      (io.str st.outS = [] →
        expirationError (ic.str c) (io.str st.outS) (effectiveTimeout timeOut) =
          strBytes "in command " ++ goQuote (ic.str c) ++ strBytes ", time " ++
            durationRender (effectiveTimeout timeOut) ++
            strBytes " expired before detection of " ++ strBytes "prompt") ∧
      (io.str st.outS ≠ [] →
        expirationError (ic.str c) (io.str st.outS) (effectiveTimeout timeOut) =
          strBytes "in command " ++ goQuote (ic.str c) ++ strBytes ", time " ++
            durationRender (effectiveTimeout timeOut) ++
            strBytes " expired before detection of " ++
            strBytes "output from sentinel command " ++
            goQuote (io.str st.outS)) := by
  intro r h hrun
  refine ⟨?_, ?_, ?_⟩
  · rw [issueSentinelsAndFilter, hrun] at h
    simp only [Bool.not_true, Bool.false_eq_true, if_false] at h
    split at h
    · exact absurd h (by simp)
    case _ heq =>
      have hz := issueCommand_goodSink_no_error sink hsink _ _ _ _ heq
      simp at hz
    case _ heq =>
      split at h
      · exact absurd h (by simp)
      case _ heq2 =>
        rcases hes : st.errS with _ | es
        · rw [hes] at heq2
          simp at heq2
        · rw [hes] at heq2
          simp only [Option.map_eq_some'] at heq2
          obtain ⟨r2, hic, hpair⟩ := heq2
          have hz := issueCommand_goodSink_no_error sink hsink _ _ _ _ hic
          rw [hz] at hpair
          simp at hpair
      case _ heq2 =>
        rw [if_pos trivial] at h
        cases h
        rfl
  · intro hempty
    simp [expirationError, hempty, List.append_assoc]
  · intro hfull
    simp [expirationError, hfull, List.append_assoc]

/-- C7 witness: the timeout theorem applied to a concrete round with a
zero timeout (so the 3-second default applies): the round error is the
expiration error naming the effective duration and the quoted sentinel
command text. -/
theorem c7_witness :
    issueSentinelsAndFilter simpleSentinelImpl simpleSentinelImpl hoardingImpl
        goodSink
        ⟨true, 0, ⟨strBytes "echo X_MARK", strBytes "X_MARK", false, []⟩,
          some ⟨strBytes "bogusCmd", strBytes "unknown command", false, []⟩⟩
        ⟨strBytes "list limit 2", []⟩ [] [] 0 true =
      some (⟨false, 0, ⟨strBytes "echo X_MARK", strBytes "X_MARK", false, []⟩,
          some ⟨strBytes "bogusCmd", strBytes "unknown command", false, []⟩⟩,
        ⟨strBytes "list limit 2", []⟩,
        some (GoErr.expired (expirationError (strBytes "list limit 2")
          (strBytes "echo X_MARK") 3000000000)),
        [strBytes "echo X_MARK" ++ [10], strBytes "bogusCmd" ++ [10]]) ∧
    expirationError (strBytes "list limit 2") (strBytes "echo X_MARK")
        3000000000 =
      strBytes "in command " ++ goQuote (strBytes "list limit 2") ++
        strBytes ", time " ++ durationRender 3000000000 ++
        strBytes " expired before detection of " ++
        strBytes "output from sentinel command " ++
        goQuote (strBytes "echo X_MARK") := by
  have h : issueSentinelsAndFilter simpleSentinelImpl simpleSentinelImpl
      hoardingImpl goodSink
      ⟨true, 0, ⟨strBytes "echo X_MARK", strBytes "X_MARK", false, []⟩,
        some ⟨strBytes "bogusCmd", strBytes "unknown command", false, []⟩⟩
      ⟨strBytes "list limit 2", []⟩ [] [] 0 true =
    some (⟨false, 0, ⟨strBytes "echo X_MARK", strBytes "X_MARK", false, []⟩,
        some ⟨strBytes "bogusCmd", strBytes "unknown command", false, []⟩⟩,
      ⟨strBytes "list limit 2", []⟩,
      some (GoErr.expired (expirationError (strBytes "list limit 2")
        (strBytes "echo X_MARK") 3000000000)),
      [strBytes "echo X_MARK" ++ [10], strBytes "bogusCmd" ++ [10]]) := by
    decide
  have hc := c7_timeout_names_duration_and_sentinel simpleSentinelImpl
    simpleSentinelImpl hoardingImpl goodSink
    ⟨true, 0, ⟨strBytes "echo X_MARK", strBytes "X_MARK", false, []⟩,
      some ⟨strBytes "bogusCmd", strBytes "unknown command", false, []⟩⟩
    ⟨strBytes "list limit 2", []⟩ [] [] 0 (fun _ => rfl) _ h rfl
  exact ⟨h, (hc.2.2 (by decide)).trans (by decide)⟩

/-- Model of `errorTracker.log` (errortracker.go): appends, ignoring a nil error. -/
def etLog (et : List GoErr) (e : Option GoErr) : List GoErr :=
  match e with
  | none => et
  | some x => et ++ [x]

/-- Model of `errorTracker.lastError` (errortracker.go): total on a nil tracker
(`none`) and on an empty log; otherwise the most recent entry. -/
def etLastError : Option (List GoErr) → Option GoErr
  | none => none
  | some errs => errs.getLast?

/-- Model of `log` on the runner's tracker pointer.  The runner only logs after
`startSubprocess` allocated the tracker, so a nil pointer is unreachable
here; `Option.map` keeps the model total. -/
def trackerLog (t : Option (List GoErr)) (e : Option GoErr) :
    Option (List GoErr) :=
  t.map (fun l => etLog l e)

/-- The `Parameters` bag (the fields the embedded operations read;
`errTag` models ErrPrefix). -/
structure Parameters (σo σe : Type) where
  workingDir : List Nat
  path : List Nat
  args : List (List Nat)
  errTag : List Nat
  exitCommand : List Nat
  outSentinel : Option σo
  errSentinel : Option σe
  commandTerminator : Nat
  deriving DecidableEq, Repr

/-- Model of `Parameters.Validate`: fails when Path is empty or OutSentinel nil. -/
def validate {σo σe : Type} (p : Parameters σo σe) : Option GoErr :=
  if p.path = [] then some GoErr.mustSpecifyPath
  else if p.outSentinel.isNone then some GoErr.mustSpecifyOutSentinel
  else none

/-- The `ProcRunner` state: the parameters, the error tracker pointer
(nil until `startSubprocess` allocates it), the subprocess handle
(`cmd != nil`), and the sentinel filter. -/
structure ProcRunner (σo σe : Type) where
  params : Parameters σo σe
  errs : Option (List GoErr)
  hasCmd : Bool
  filter : SFState σo σe
  deriving DecidableEq, Repr

/-- The derived runner states. -/
inductive RunnerState where
  | uninitialized
  | idle
  | running
  | error
  deriving DecidableEq, Repr

/-- Model of `ProcRunner.lastError`. -/
def lastErrorOf {σo σe : Type} (r : ProcRunner σo σe) : Option GoErr :=
  etLastError r.errs

/-- Model of `getState` (procrunner.go): derived, never stored — Error iff the log
is non-empty, else Uninitialized iff no handle, else Running iff the
filter runs, else Idle. -/
def getState {σo σe : Type} (r : ProcRunner σo σe) : RunnerState :=
  if (lastErrorOf r).isSome then RunnerState.error
  else if !r.hasCmd then RunnerState.uninitialized
  else if r.filter.running then RunnerState.running
  else RunnerState.idle

/-- Model of `makeSentinelFilter`: panics (`none`) when the out sentinel is nil or
when a configured err sentinel's command text equals the out
sentinel's. -/
def makeSentinelFilter {σo σe : Type} (io : CommanderImpl σo)
    (ie : CommanderImpl σe) (os : Option σo) (es : Option σe) (t : Nat) :
    Option (SFState σo σe) :=
  match os with
  | none => none
  | some o =>
    match es with
    | some e =>
      if io.str o = ie.str e then none else some ⟨false, t, o, some e⟩
    | none => some ⟨false, t, o, none⟩

/-- Model of `NewProcRunner`: validate the parameters, then build the filter
(which may panic); the error tracker stays nil until the first round
starts the subprocess. -/
def newProcRunner {σo σe : Type} (io : CommanderImpl σo)
    (ie : CommanderImpl σe) (p : Parameters σo σe) :
    Option (Except GoErr (ProcRunner σo σe)) :=
  match validate p with
  | some e => some (Except.error e)
  | none =>
    match makeSentinelFilter io ie p.outSentinel p.errSentinel
        p.commandTerminator with
    | none => none
    | some f => some (Except.ok ⟨p, none, false, f⟩)

/-- The outcomes of one operation's external effects: the subprocess
start, the stdin sink, the two line channels, the timer race, and the
stdin close. -/
structure RunEnv where
  startErr : Option (List Nat)
  sink : Sink
  chOut : List (List Nat)
  chErr : List (List Nat)
  timerWins : Bool
  closeErr : Option (List Nat)

/-- The `case stateIdle` body of `RunIt`: require a commander, begin the
run (`BeginRun` = `issueCommand` of the commander's text; a write error
is returned to the caller unlogged — the code has no `enterStateError`
on that path), then wait via `issueSentinelsAndFilter`, logging any wait
error.  Result: (runner, commander state, error, writes). -/
def runCore {σo σe σc : Type} (io : CommanderImpl σo) (ie : CommanderImpl σe)
    (ic : CommanderImpl σc) (env : RunEnv) (r : ProcRunner σo σe)
    (cmdr : Option σc) (timeOut : Nat) :
    Option (ProcRunner σo σe × Option σc × Option GoErr × List (List Nat)) :=
  match cmdr with
  | none => some (r, none, some GoErr.provideCommander, [])
  | some c =>
    match issueCommand env.sink r.filter.term r.filter.running (ic.str c) with
    | none => none
    | some (_, some e, run1, w1) =>
      some ({ r with filter := { r.filter with running := run1 } },
        some c, some e, w1)
    | some (_, none, run1, w1) =>
      match issueSentinelsAndFilter io ie ic env.sink
          { r.filter with running := run1 } c env.chOut env.chErr timeOut
          env.timerWins with
      | none => none
      | some (f2, c2, errF, w2) =>
        some ({ r with filter := f2, errs := trackerLog r.errs errF },
          some c2, errF, w1 ++ w2)

/-- Model of `RunIt` (procrunner.go): the derived-state switch.  Error and Running
reject immediately; Uninitialized starts the subprocess (fresh tracker,
handle set; a start failure is logged and returned) and falls through to
the Idle body. -/
def runIt {σo σe σc : Type} (io : CommanderImpl σo) (ie : CommanderImpl σe)
    (ic : CommanderImpl σc) (env : RunEnv) (r : ProcRunner σo σe)
    (cmdr : Option σc) (timeOut : Nat) :
    Option (ProcRunner σo σe × Option σc × Option GoErr × List (List Nat)) :=
  match getState r with
  | RunnerState.error => some (r, cmdr, some GoErr.errState, [])
  | RunnerState.running => some (r, cmdr, some GoErr.alreadyRunning, [])
  | RunnerState.uninitialized =>
    match env.startErr with
    | some m =>
      some ({ r with errs := some [GoErr.startFailed m], hasCmd := true },
        cmdr, some (GoErr.startFailed m), [])
    | none =>
      runCore io ie ic env { r with errs := some [], hasCmd := true } cmdr
        timeOut
  | RunnerState.idle => runCore io ie ic env r cmdr timeOut

/-- Model of `Close` (procrunner.go): Uninitialized returns nil; Running and Error
return errors; Idle attempts shutdown — `BeginRun` of a `KondoCommander`
holding the exit command (a no-op write when the text is empty), then
closing stdin, with failures logged and returned. -/
def closeRunner {σo σe : Type} (io : CommanderImpl σo)
    (ie : CommanderImpl σe) (env : RunEnv) (r : ProcRunner σo σe) :
    Option (ProcRunner σo σe × Option GoErr × List (List Nat)) :=
  match getState r with
  | RunnerState.uninitialized => some (r, none, [])
  | RunnerState.running => some (r, some GoErr.cannotInterrupt, [])
  | RunnerState.error => some (r, some GoErr.cannotCloseError, [])
  | RunnerState.idle =>
    match issueCommand env.sink r.filter.term r.filter.running
        r.params.exitCommand with
    | none => none
    | some (_, some e, run1, w1) =>
      let f1 := { r.filter with running := run1 }
      some ({ r with filter := f1, errs := trackerLog r.errs (some e) }, some e, w1)
    | some (_, none, run1, w1) =>
      let f1 := { r.filter with running := run1 }
      match env.closeErr with
      | some m =>
        some ({ r with
                filter := f1,
                errs := trackerLog r.errs (some (GoErr.closeFailed m)) },
          some (GoErr.closeFailed m), w1)
      | none =>
        some ({ r with filter := f1 }, none, w1)

/-- One client operation on the runner. -/
inductive RunnerOp (σc : Type) where
  | run (env : RunEnv) (cmdr : Option σc) (timeOut : Nat)
  | close (env : RunEnv)

/-- Execute a sequence of operations, stopping at a panic. -/
def execOps {σo σe σc : Type} (io : CommanderImpl σo) (ie : CommanderImpl σe)
    (ic : CommanderImpl σc) (r : ProcRunner σo σe) :
    List (RunnerOp σc) → Option (ProcRunner σo σe)
  | [] => some r
  | RunnerOp.run env cmdr timeOut :: rest =>
    match runIt io ie ic env r cmdr timeOut with
    | none => none
    | some (r1, _, _, _) => execOps io ie ic r1 rest
  | RunnerOp.close env :: rest =>
    match closeRunner io ie env r with
    | none => none
    | some (r1, _, _) => execOps io ie ic r1 rest

/-- Decidable equality of construction results. -/
instance exceptDecEq {ε α : Type} [DecidableEq ε] [DecidableEq α] :
    DecidableEq (Except ε α) := fun x y =>
  match x, y with
  | Except.error a, Except.error b =>
    if h : a = b then Decidable.isTrue (by rw [h])
    else Decidable.isFalse (by simp [h])
  | Except.ok a, Except.ok b =>
    if h : a = b then Decidable.isTrue (by rw [h])
    else Decidable.isFalse (by simp [h])
  | Except.error _, Except.ok _ => Decidable.isFalse (by simp)
  | Except.ok _, Except.error _ => Decidable.isFalse (by simp)

/-- A sample valid parameter bag (the testcli configuration shape). -/
def sampleParams : Parameters SimpleSentinelCommander SimpleSentinelCommander :=
  ⟨[], strBytes "testcli", [], strBytes "yikes: ", strBytes "quit",
    some ⟨strBytes "echo X_MARK", strBytes "X_MARK", false, []⟩,
    some ⟨strBytes "bogusCmd", strBytes "unknown command", false, []⟩, 0⟩

/-- A benign environment: the start succeeds, writes succeed, the
channels are empty, the timer loses, closing stdin succeeds. -/
def quietEnv : RunEnv := ⟨none, goodSink, [], [], false, none⟩

/-- The runner `NewProcRunner` builds for `sampleParams`. -/
def freshRunner : ProcRunner SimpleSentinelCommander SimpleSentinelCommander :=
  ⟨sampleParams, none, false,
    ⟨false, 0, ⟨strBytes "echo X_MARK", strBytes "X_MARK", false, []⟩,
      some ⟨strBytes "bogusCmd", strBytes "unknown command", false, []⟩⟩⟩

/-- A runner whose error log holds one entry. -/
def erroredRunner : ProcRunner SimpleSentinelCommander SimpleSentinelCommander :=
  ⟨sampleParams, some [GoErr.nothingRunning], true,
    ⟨false, 0, ⟨strBytes "echo X_MARK", strBytes "X_MARK", false, []⟩,
      some ⟨strBytes "bogusCmd", strBytes "unknown command", false, []⟩⟩⟩

/-- A runner with a started subprocess and a round in flight. -/
def runningRunner : ProcRunner SimpleSentinelCommander SimpleSentinelCommander :=
  ⟨sampleParams, some [], true,
    ⟨true, 0, ⟨strBytes "echo X_MARK", strBytes "X_MARK", false, []⟩,
      some ⟨strBytes "bogusCmd", strBytes "unknown command", false, []⟩⟩⟩

/-- C3: once the Error Log is non-empty the derived state is Error and
stays Error: `RunIt` rejects immediately with the unrecoverable-state
error, performing no subprocess write and changing nothing; `Close`
rejects with its error-state error; and any sequence of operations leaves
the runner (its log included) exactly as it is. -/
theorem c3_error_log_is_terminal {σo σe σc : Type} (io : CommanderImpl σo)
    (ie : CommanderImpl σe) (ic : CommanderImpl σc) (r : ProcRunner σo σe)
    (l : List GoErr) (hl : r.errs = some l) (hne : l ≠ []) :
    getState r = RunnerState.error ∧
    (∀ env (cmdr : Option σc) timeOut, runIt io ie ic env r cmdr timeOut =
      some (r, cmdr, some GoErr.errState, [])) ∧
    (∀ env, closeRunner io ie env r =
      some (r, some GoErr.cannotCloseError, [])) ∧
    (∀ ops : List (RunnerOp σc), execOps io ie ic r ops = some r) := by
  have hstate : getState r = RunnerState.error := by
    simp [getState, lastErrorOf, hl, etLastError, List.getLast?_isSome, hne]
  have hrun : ∀ env (cmdr : Option σc) timeOut,
      runIt io ie ic env r cmdr timeOut =
        some (r, cmdr, some GoErr.errState, []) := by
    intro env cmdr t
    simp only [runIt, hstate]
  have hclose : ∀ env, closeRunner io ie env r =
      some (r, some GoErr.cannotCloseError, []) := by
    intro env
    simp only [closeRunner, hstate]
  refine ⟨hstate, hrun, hclose, ?_⟩
  intro ops
  induction ops with
  | nil => rfl
  | cons op rest ih =>
    cases op with
    | run env cmdr t =>
      simp only [execOps, hrun env cmdr t]
      exact ih
    | close env =>
      simp only [execOps, hclose env]
      exact ih

/-- C3 witness: the terminality theorem applied to a concrete runner
whose log holds one error, over a benign environment and a concrete
operation sequence. -/
theorem c3_witness :
    getState erroredRunner = RunnerState.error ∧
    runIt simpleSentinelImpl simpleSentinelImpl kondoImpl quietEnv
        erroredRunner none 0 =
      some (erroredRunner, none, some GoErr.errState, []) ∧
    closeRunner simpleSentinelImpl simpleSentinelImpl quietEnv erroredRunner =
      some (erroredRunner, some GoErr.cannotCloseError, []) ∧
    execOps simpleSentinelImpl simpleSentinelImpl kondoImpl erroredRunner
        [RunnerOp.run quietEnv none 0, RunnerOp.close quietEnv] =
      some erroredRunner := by
  have h := c3_error_log_is_terminal simpleSentinelImpl simpleSentinelImpl
    kondoImpl erroredRunner [GoErr.nothingRunning] rfl (by decide)
  exact ⟨h.1, h.2.1 quietEnv none 0, h.2.2.1 quietEnv,
    h.2.2.2 [RunnerOp.run quietEnv none 0, RunnerOp.close quietEnv]⟩

/-- C8 counterexample: `Close` on a freshly constructed runner
(Uninitialized) performs no shutdown action and returns nil — not an
error as the claim asserts for every non-Idle state. -/
theorem c8_counterexample :
    newProcRunner simpleSentinelImpl simpleSentinelImpl sampleParams =
      some (Except.ok freshRunner) ∧
    closeRunner simpleSentinelImpl simpleSentinelImpl quietEnv freshRunner =
      some (freshRunner, none, []) := by
  decide

/-- C8 (amended): `Close` performs shutdown only from Idle; from Running
and from Error it performs no shutdown action and returns an error; from
Uninitialized it performs no shutdown action and returns nil (no
error). -/
theorem c8_close_only_from_idle {σo σe : Type} (io : CommanderImpl σo)
    (ie : CommanderImpl σe) (env : RunEnv) (r : ProcRunner σo σe) :
    (getState r = RunnerState.running →
      closeRunner io ie env r = some (r, some GoErr.cannotInterrupt, [])) ∧
    (getState r = RunnerState.error →
      closeRunner io ie env r = some (r, some GoErr.cannotCloseError, [])) ∧
    (getState r = RunnerState.uninitialized →
      closeRunner io ie env r = some (r, none, [])) := by
  refine ⟨?_, ?_, ?_⟩ <;> intro h <;> simp only [closeRunner, h]

/-- C8 witness: the amended theorem applied to a runner with a round in
flight: `Close` returns the cannot-interrupt error and does nothing. -/
theorem c8_witness :
    closeRunner simpleSentinelImpl simpleSentinelImpl quietEnv
        runningRunner =
      some (runningRunner, some GoErr.cannotInterrupt, []) :=
  (c8_close_only_from_idle simpleSentinelImpl simpleSentinelImpl quietEnv
    runningRunner).1 (by decide)

/-- C9 (amended): construction fails synchronously — returning an error,
never logging one (the tracker of a built runner is still nil) — exactly
when the path is empty or the output sentinel is nil; for every other
combination in which any configured error sentinel's command text differs
from the output sentinel's, construction returns the runner without
error; when the texts coincide, `makeSentinelFilter` panics instead. -/
theorem c9_construction_validation {σo σe : Type} (io : CommanderImpl σo)
    (ie : CommanderImpl σe) (p : Parameters σo σe) :
    (p.path = [] →
      newProcRunner io ie p = some (Except.error GoErr.mustSpecifyPath)) ∧
    (p.path ≠ [] → p.outSentinel = none →
      newProcRunner io ie p =
        some (Except.error GoErr.mustSpecifyOutSentinel)) ∧
    (∀ os, p.path ≠ [] → p.outSentinel = some os →
      (∀ es, p.errSentinel = some es → io.str os ≠ ie.str es) →
      newProcRunner io ie p = some (Except.ok
        ⟨p, none, false, ⟨false, p.commandTerminator, os, p.errSentinel⟩⟩)) := by
  refine ⟨?_, ?_, ?_⟩
  · intro h
    simp [newProcRunner, validate, h]
  · intro h1 h2
    simp [newProcRunner, validate, h1, h2]
  · intro os h1 h2 h3
    rcases hes : p.errSentinel with _ | es
    · simp [newProcRunner, validate, makeSentinelFilter, h1, h2, hes]
    · have hne := h3 es hes
      simp [newProcRunner, validate, makeSentinelFilter, h1, h2, hes, hne]

/-- C9 witness: the amended theorem applied to `sampleParams` (non-empty
path, both sentinels configured with different command texts):
construction returns the fresh runner, whose tracker is nil (nothing
logged). -/
theorem c9_witness :
    newProcRunner simpleSentinelImpl simpleSentinelImpl sampleParams =
      some (Except.ok freshRunner) ∧
    freshRunner.errs = none := by
  have h := (c9_construction_validation simpleSentinelImpl simpleSentinelImpl
    sampleParams).2.2 ⟨strBytes "echo X_MARK", strBytes "X_MARK", false, []⟩
    (by decide) (by decide)
    (fun es hes => by
      rw [show sampleParams.errSentinel =
        some ⟨strBytes "bogusCmd", strBytes "unknown command", false, []⟩
        from rfl] at hes
      cases hes
      decide)
  exact ⟨h.trans (by decide), rfl⟩

/-- C9 counterexample: every validation-passing parameter combination is
claimed to construct a runner without error, but when a configured error
sentinel's command text equals the output sentinel's, construction panics
(`makeSentinelFilter`) instead of returning a runner. -/
theorem c9_counterexample :
    newProcRunner simpleSentinelImpl simpleSentinelImpl
      { sampleParams with
        errSentinel := some ⟨strBytes "echo X_MARK", strBytes "X", false, []⟩ } =
      none := by
  decide

/-- C10: the error tracker's queries are total before anything is logged
or allocated: `lastError` on a nil tracker and on an empty log is nil,
`log(nil)` leaves the log unchanged, and a freshly constructed runner
(nil tracker, no handle) derives state Uninitialized, not Error. -/
theorem c10_error_tracker_total :
    etLastError none = none ∧
    etLastError (some []) = none ∧
    (∀ et : List GoErr, etLog et none = et) ∧
    newProcRunner simpleSentinelImpl simpleSentinelImpl sampleParams =
      some (Except.ok freshRunner) ∧
    getState freshRunner = RunnerState.uninitialized := by
  exact ⟨rfl, rfl, fun et => rfl, by decide, by decide⟩

end Clirunner
